import Mathlib

/-!
# Verification of the `prop` file-informer utility

Shallow embedding of `src/informer.rs` (the metadata-formatting core of the
`prop` CLI) and proofs about it.  Machine arithmetic is modelled over `Nat`,
`Int` and `ℚ`; the lossy `u64 -> f32` conversion performed by
`File::determine_size` is modelled exactly by `f32round` (round to nearest,
ties to even, 24-bit significand).  A Rust `panic!`/`unwrap` failure is
modelled by `Option.none`.
-/

set_option autoImplicit false

namespace Informer

/-- Fuel-bounded floor of the base-2 logarithm (structurally recursive so the
kernel can evaluate it). -/
def log2aux (fuel n : Nat) : Nat :=
  match fuel with
  | 0 => 0
  | fuel' + 1 => if 2 ≤ n then log2aux fuel' (n / 2) + 1 else 0

/-- Floor of the base-2 logarithm; `fuel = n` always suffices because the
argument at least halves at every step. -/
def floorLog2 (n : Nat) : Nat := log2aux n n

/-- Round-to-nearest-even conversion of a non-negative integer to an IEEE-754
`binary32` value, returned as the exact natural number the float represents.
Every `u64` is finite in `f32` range, and a value below `2 ^ 24` is exact;
above that, the value is rounded to a multiple of `2 ^ (exponent - 23)`,
ties going to the even significand.  This models Rust's `value as f32`. -/
def f32round (n : Nat) : Nat :=
  if n < 2 ^ 24 then n
  else
    let u := 2 ^ (floorLog2 n - 23)
    let q := n / u
    let r := n % u
    if 2 * r < u then q * u
    else if u < 2 * r then (q + 1) * u
    else if q % 2 = 0 then q * u else (q + 1) * u

/-- Embedding of `File::determine_size` (src/informer.rs:38-60).  The code
converts the byte count to `f32`, compares it against the limits
`1024`, `1024^2`, `1024^3`, `1024^4` (all exactly representable), and
formats `size / divisor` with a unit suffix.  Every division performed by the
code is by a power of two and hence exact on the rounded value, so the float
the code prints is exactly the rational returned here; the decimal rendering
of that float by Rust's `{}` formatter is not modelled, the result is the
pair (exact displayed value, unit suffix). -/
def determine_size (value : Nat) : ℚ × String :=
  let size := f32round value
  if size < 1024 then (((size : ℚ)) / 1024, "bytes")
  else if size < 1024 * 1024 then ((size : ℚ) / 1024, "KB")
  else if size < 1024 * 1024 * 1024 then ((size : ℚ) / (1024 * 1024), "MB")
  else if size < 1024 * 1024 * 1024 * 1024 then ((size : ℚ) / (1024 * 1024 * 1024), "GB")
  else ((size : ℚ) / (1024 * 1024 * 1024 * 1024), "TB")

/-- Modelled from the spec (§4.1 / §8): the unit tier the specification
assigns to a byte count, with exact integer boundaries,
inclusive-below/exclusive-above. -/
def spec_tier (n : Nat) : String :=
  if n < 1024 then "bytes"
  else if n < 1024 ^ 2 then "KB"
  else if n < 1024 ^ 3 then "MB"
  else if n < 1024 ^ 4 then "GB"
  else "TB"

/-- The permission labels (enum `FilePermissions`, src/informer.rs:99-103). -/
inductive FilePermissions where
  | Read
  | Write
  | Executable
deriving DecidableEq, Repr

/-- The two observations the code makes of `std::fs::Permissions`: the
platform read-only flag and the raw POSIX mode bits. -/
structure Permissions where
  readonly : Bool
  mode : Nat
deriving DecidableEq, Repr

/-- Embedding of `FilePermissions::is_executable` (src/informer.rs:125-127). -/
def FilePermissions.is_executable (value : Nat) : Bool :=
  value &&& 0o111 != 0

/-- Embedding of `FilePermissions::new` (src/informer.rs:106-123): a 3-slot
array of optional labels, branching on the read-only flag and then on the
execute bits. -/
def FilePermissions.new (value : Permissions) : List (Option FilePermissions) :=
  match value.readonly with
  | true =>
    match is_executable value.mode with
    | true => [some FilePermissions.Read, none, some FilePermissions.Executable]
    | false => [some FilePermissions.Read, none, none]
  | false =>
    match is_executable value.mode with
    | true => [some FilePermissions.Read, some FilePermissions.Write, some FilePermissions.Executable]
    | false => [some FilePermissions.Read, some FilePermissions.Write, none]

/-- Embedding of `Display for FilePermissions` (src/informer.rs:130-138). -/
def FilePermissions.toStr : FilePermissions → String
  | .Read => "Read"
  | .Write => "Write"
  | .Executable => "Executable"

/-- Embedding of the permissions join in `Display for File`
(src/informer.rs:67-74): each slot is rendered (`""` for an absent slot) and
the renderings are joined with `"+"`. -/
def permString (perms : List (Option FilePermissions)) : String :=
  String.intercalate "+" (perms.map fun p =>
    match p with
    | some x => FilePermissions.toStr x
    | none => "")

/-- The file kinds (enum `FileKind`, src/informer.rs:141-145). -/
inductive FileKind where
  | Regular
  | Folder
  | Symlink
deriving DecidableEq, Repr

/-- The three predicates the code queries on `std::fs::FileType`. -/
structure FileType where
  is_file : Bool
  is_dir : Bool
  is_symlink : Bool
deriving DecidableEq, Repr

/-- Embedding of `impl From<FileType> for FileKind` (src/informer.rs:147-159).
The `unreachable!` branch (a panic) is modelled by `none`. -/
def FileKind.ofFileType (value : FileType) : Option FileKind :=
  if value.is_file then some FileKind.Regular
  else if value.is_dir then some FileKind.Folder
  else if value.is_symlink then some FileKind.Symlink
  else none

/-- Embedding of `Display for FileKind` (src/informer.rs:161-169). -/
def FileKind.toStr : FileKind → String
  | .Regular => "Regular"
  | .Folder => "Folder"
  | .Symlink => "Symlink"

/-- The three timestamp accessors of `std::fs::Metadata` as the code uses
them.  A timestamp is modelled as whole seconds relative to the Unix epoch
(`Int`, signed: a `SystemTime` may lie before the epoch); `none` models the
accessor returning `Err` (field unsupported on the platform). -/
structure Metadata where
  created : Option Int
  modified : Option Int
  accessed : Option Int
deriving DecidableEq, Repr

/-- Embedding of `FileDate::parse_time` (src/informer.rs:179-188) with
`epoch = OffsetDateTime::UNIX_EPOCH`.  `none` models a panic:
`systime.duration_since(epoch).unwrap()` panics when the timestamp lies
before the epoch, `Duration::try_from(..).unwrap()` panics when the second
count exceeds `i64::MAX`, and `UtcOffset::local_offset_at(utc).unwrap()`
panics when the local offset cannot be resolved (modelled by the oracle
`localOffset`).  The conversion of the resulting instant and offset to a
calendar date-time string by the `time` crate is modelled by the oracle
`render`. -/
def parse_time (systime : Int) (localOffset : Int → Option Int)
    (render : Int → Int → String) : Option String :=
  if systime < 0 then none
  else if (2 : Int) ^ 63 - 1 < systime then none
  else
    match localOffset systime with
    | none => none
    | some off => some (render systime off)

/-- One field of `impl From<Metadata> for FileDate`: a `map_or_else` that
yields the `"unknown"` sentinel when the accessor returned `Err`, and
otherwise runs `parse_time` (which may panic, i.e. `none`). -/
def dateField (field : Option Int) (localOffset : Int → Option Int)
    (render : Int → Int → String) : Option String :=
  match field with
  | none => some "unknown"
  | some t => parse_time t localOffset render

/-- The `FileDate` record (src/informer.rs:171-176). -/
structure FileDate where
  created : String
  modified : String
  accessed : String
deriving DecidableEq, Repr

/-- Embedding of `impl From<Metadata> for FileDate` (src/informer.rs:191-207).
Note the source reads `value.modified()` for the `accessed` field as well;
the `accessed` accessor of the metadata is never consulted.  An overall
`none` models a panic escaping from any of the three `parse_time` calls. -/
def FileDate.ofMetadata (value : Metadata) (localOffset : Int → Option Int)
    (render : Int → Int → String) : Option FileDate :=
  match dateField value.created localOffset render with
  | none => none
  | some created =>
    match dateField value.modified localOffset render with
    | none => none
    | some modified =>
      match dateField value.modified localOffset render with
      | none => none
      | some accessed => some ⟨created, modified, accessed⟩

/-- A concrete local-offset oracle: resolution always succeeds with UTC. -/
def zeroOffset : Int → Option Int := fun _ => some 0

/-- A concrete rendering oracle: prints the second count of the instant. -/
def simpleRender : Int → Int → String := fun t _ => toString t

/-- Split a character list on `'/'` (the separators are consumed, empty
segments are kept). -/
def splitOnSlash : List Char → List (List Char)
  | [] => [[]]
  | c :: rest =>
    let r := splitOnSlash rest
    if c = '/' then [] :: r
    else
      match r with
      | h :: t => (c :: h) :: t
      | [] => [[c]]

/-- Model of `std::path::Path::file_name` for valid-UTF-8 paths, following
its documented semantics: parse the path into components (empty and `"."`
segments are dropped), and return the last component unless it is `".."`
(or there is none, e.g. for the root path). -/
def Path.file_name (path : String) : Option String :=
  let comps := (splitOnSlash path.toList).filter fun c => !(c == []) && !(c == ['.'])
  match comps.getLast? with
  | none => none
  | some c => if c == ['.', '.'] then none else some (String.mk c)

/-- Embedding of the name derivation in `File::new` (src/informer.rs:27-29)
for valid-UTF-8 paths, where `to_str().unwrap()` always succeeds:
`path.file_name().map_or_else(|| "unknown", |v| v.to_str().unwrap())`. -/
def derive_name (arg : String) : String :=
  match Path.file_name arg with
  | none => "unknown"
  | some v => v

/-- Is a continuation byte (`0x80..=0xBF`)? -/
def isCont (b : Nat) : Bool := 0x80 ≤ b && b ≤ 0xBF

/-- UTF-8 validity of a byte sequence (the well-formedness that
`OsStr::to_str` checks): ASCII, or a correctly ranged 2-, 3- or 4-byte
sequence (overlongs and surrogates excluded). -/
def isValidUtf8 : List Nat → Bool
  | [] => true
  | b :: rest =>
    if b ≤ 0x7F then isValidUtf8 rest
    else if 0xC2 ≤ b && b ≤ 0xDF then
      match rest with
      | c1 :: r => isCont c1 && isValidUtf8 r
      | [] => false
    else if b == 0xE0 then
      match rest with
      | c1 :: c2 :: r => (0xA0 ≤ c1 && c1 ≤ 0xBF) && isCont c2 && isValidUtf8 r
      | _ => false
    else if (0xE1 ≤ b && b ≤ 0xEC) || b == 0xEE || b == 0xEF then
      match rest with
      | c1 :: c2 :: r => isCont c1 && isCont c2 && isValidUtf8 r
      | _ => false
    else if b == 0xED then
      match rest with
      | c1 :: c2 :: r => (0x80 ≤ c1 && c1 ≤ 0x9F) && isCont c2 && isValidUtf8 r
      | _ => false
    else if b == 0xF0 then
      match rest with
      | c1 :: c2 :: c3 :: r => (0x90 ≤ c1 && c1 ≤ 0xBF) && isCont c2 && isCont c3 && isValidUtf8 r
      | _ => false
    else if 0xF1 ≤ b && b ≤ 0xF3 then
      match rest with
      | c1 :: c2 :: c3 :: r => isCont c1 && isCont c2 && isCont c3 && isValidUtf8 r
      | _ => false
    else if b == 0xF4 then
      match rest with
      | c1 :: c2 :: c3 :: r => (0x80 ≤ c1 && c1 ≤ 0x8F) && isCont c2 && isCont c3 && isValidUtf8 r
      | _ => false
    else false

/-- The UTF-8 bytes of the sentinel string `"unknown"`. -/
def unknownBytes : List Nat := [0x75, 0x6E, 0x6B, 0x6E, 0x6F, 0x77, 0x6E]

/-- Byte-level embedding of the name derivation in `File::new`
(src/informer.rs:27-29).  The final path component is an OS string (a raw
byte sequence); `to_str()` succeeds exactly on valid UTF-8 and the `unwrap`
on its failure is a panic, modelled by `none`. -/
def name_os (fname : Option (List Nat)) : Option (List Nat) :=
  match fname with
  | none => some unknownBytes
  | some v => if isValidUtf8 v then some v else none

/-- A run of `n` spaces. -/
def spacesN (n : Nat) : String := String.mk (List.replicate n ' ')

/-- Embedding of `"c".repeat(n)` for a single character. -/
def repeatChar (n : Nat) (c : Char) : String := String.mk (List.replicate n c)

/-- Truncation to at most `n` characters (the `.n` precision of a Rust
format specifier). -/
def truncN (n : Nat) (s : String) : String := String.mk (s.toList.take n)

/-- Rust's `{:^w.w}`: truncate to `w` characters, then centre-pad with
spaces to width `w` (the extra space, if any, goes to the right). -/
def centerPad (w : Nat) (s : String) : String :=
  let t := truncN w s
  let pad := w - t.length
  spacesN (pad / 2) ++ t ++ spacesN (pad - pad / 2)

/-- Rust's `{:<w}`: left-align and pad with spaces to width `w`; a string
already at least `w` characters long is left unchanged (no truncation). -/
def leftPad (w : Nat) (s : String) : String := s ++ spacesN (w - s.length)

/-- The `File` record (src/informer.rs:10-17): all fields are fully
formatted strings (or the slot/kind enums) at construction time. -/
structure File where
  name : String
  size : String
  permissions : List (Option FilePermissions)
  kind : FileKind
  date : FileDate
deriving DecidableEq, Repr

/-- Embedding of `impl Display for File` (src/informer.rs:63-96): the ten
lines of the rendered panel, in output order. -/
def File.displayLines (f : File) : List String :=
  let horizontal_line := repeatChar 65 '─'
  let name_line := "│ " ++ centerPad 63 f.name ++ " │"
  let size_line := "│ Size: " ++ leftPad 57 f.size ++ " │"
  let permissions_line := "│ Permissions: " ++ leftPad 50 (permString f.permissions) ++ " │"
  let kind_line := "│ Type: " ++ leftPad 57 (FileKind.toStr f.kind) ++ " │"
  let created_line := "│ Created: " ++ leftPad 54 f.date.created ++ " │"
  let modified_line := "│ Modified: " ++ leftPad 53 f.date.modified ++ " │"
  let accessed_line := "│ Accessed: " ++ leftPad 53 f.date.accessed ++ " │"
  ["╭" ++ horizontal_line ++ "╮",
   name_line,
   "├" ++ horizontal_line ++ "┤",
   size_line,
   permissions_line,
   kind_line,
   created_line,
   modified_line,
   accessed_line,
   "╰" ++ horizontal_line ++ "╯"]

/-- A report whose `size` field is 58 characters long (one more than the 57
columns the size line reserves). -/
def badFile : File :=
  { name := "a"
    size := String.mk (List.replicate 58 'x')
    permissions := [some FilePermissions.Read, none, none]
    kind := FileKind.Regular
    date := ⟨"u", "u", "u"⟩ }

/-- A report with in-range field widths and an over-long name (the name is
truncated by the renderer, so it may have any length). -/
def okFile : File :=
  { name := "a-very-long-name-that-will-be-truncated-beyond-the-inner-width-of-the-panel-box"
    size := "0.5 KB"
    permissions := [some FilePermissions.Read, some FilePermissions.Write, none]
    kind := FileKind.Regular
    date := ⟨"1970-01-01 00:00:00", "1970-01-01 00:00:00", "1970-01-01 00:00:00"⟩ }

/-! ## Helper lemmas -/

lemma length_mk (l : List Char) : (String.mk l).length = l.length := rfl

lemma spacesN_length (n : Nat) : (spacesN n).length = n := by
  simp [spacesN, length_mk]

lemma repeatChar_length (n : Nat) (c : Char) : (repeatChar n c).length = n := by
  simp [repeatChar, length_mk]

lemma truncN_le (n : Nat) (s : String) : (truncN n s).length ≤ n := by
  simp [truncN, length_mk]

lemma centerPad_length (w : Nat) (s : String) : (centerPad w s).length = w := by
  have h := truncN_le w s
  simp [centerPad, String.length_append, spacesN_length]
  omega

lemma leftPad_length (w : Nat) (s : String) (h : s.length ≤ w) :
    (leftPad w s).length = w := by
  simp [leftPad, String.length_append, spacesN_length]
  omega

/-! ## Claim theorems -/

/-- C1 (counterexample): the tier boundaries are not the exact integer
boundaries the claim states.  At `n = 2 ^ 30 - 1 = 1073741823` the
specification's tiers select `MB` (since `1024 ^ 2 ≤ n < 1024 ^ 3`), but
`File::determine_size` converts `n` to `f32`, which rounds up to exactly
`2 ^ 30`, so the code selects the `GB` tier. -/
theorem size_tier_boundary_counterexample :
    spec_tier 1073741823 = "MB" ∧ (determine_size 1073741823).2 = "GB"
  ∧ ("MB" : String) ≠ "GB" := ⟨rfl, rfl, by decide⟩

/-- C1 (amended): `File::determine_size` selects the unit tier by the
claim's inclusive-below/exclusive-above boundaries applied to the `f32`
(round-to-nearest-even) conversion of the byte count rather than to the
byte count itself — within half a float ulp below the `MB`/`GB` and
`GB`/`TB` boundaries (first at `2 ^ 30 - 32`) the value is promoted to the
next tier; the output always carries the suffix of the selected tier (the
second component of the embedded result). -/
theorem size_tier_follows_f32_rounding (n : Nat) :
    (determine_size n).2 = spec_tier (f32round n) := by
  unfold determine_size spec_tier
  norm_num
  split_ifs <;> simp_all

/-- C2 (confirmed): `FilePermissions::new` returns exactly 3 slots in the
fixed order Read, Write, Executable; slot 0 is always `Read`, slot 1 is
`Write` iff the read-only flag is false, and slot 2 is `Executable` iff
`mode & 0o111 != 0`, independent of the read-only flag. -/
theorem permission_slots_spec (value : Permissions) :
    (FilePermissions.new value).length = 3
  ∧ (FilePermissions.new value).get? 0 = some (some FilePermissions.Read)
  ∧ ((FilePermissions.new value).get? 1 = some (some FilePermissions.Write) ↔
      value.readonly = false)
  ∧ ((FilePermissions.new value).get? 2 = some (some FilePermissions.Executable) ↔
      value.mode &&& 0o111 ≠ 0) := by
  obtain ⟨ro, mode⟩ := value
  have hex : FilePermissions.is_executable mode = true ↔ mode &&& 0o111 ≠ 0 := by
    simp [FilePermissions.is_executable]
  cases ro <;> by_cases he : FilePermissions.is_executable mode = true <;>
    simp_all [FilePermissions.new]

/-- C2 witness: the classifier evaluated at flag `false` and mode `0o755`. -/
theorem permission_slots_spec_witness :
    (FilePermissions.new ⟨false, 0o755⟩).length = 3
  ∧ (FilePermissions.new ⟨false, 0o755⟩).get? 0 = some (some FilePermissions.Read)
  ∧ ((FilePermissions.new ⟨false, 0o755⟩).get? 1 = some (some FilePermissions.Write) ↔
      (Permissions.mk false 0o755).readonly = false)
  ∧ ((FilePermissions.new ⟨false, 0o755⟩).get? 2 = some (some FilePermissions.Executable) ↔
      (Permissions.mk false 0o755).mode &&& 0o111 ≠ 0) :=
  permission_slots_spec ⟨false, 0o755⟩

/-- C3 (counterexample): a failure of the duration computation does not
degrade to `"unknown"` — it aborts.  With a created-timestamp one second
before the epoch, `SystemTime::duration_since(UNIX_EPOCH).unwrap()` inside
`FileDate::parse_time` panics (modelled by `none`), even though the offset
oracle and the other fields are fine; no `FileDate` with an `"unknown"`
field is produced. -/
theorem timestamp_failure_aborts :
    FileDate.ofMetadata ⟨some (-1), some 0, some 0⟩ zeroOffset simpleRender = none := rfl

/-- C3 (amended): only the absence of a timestamp field (the metadata
accessor returning an error) degrades to the `"unknown"` sentinel; a
failure of the duration computation (pre-epoch or overflowing timestamp)
or of the local-offset resolution inside `FileDate::parse_time` is an
unhandled `unwrap` panic that terminates the run.  Formally: the
conversion aborts iff some consulted present field fails `parse_time`, and
when it succeeds, absent fields (created, and modified — which the code
also uses for accessed) are exactly the `"unknown"` ones. -/
theorem timestamp_error_characterization (m : Metadata) (lo : Int → Option Int)
    (render : Int → Int → String) :
    (FileDate.ofMetadata m lo render = none ↔
      (∃ t, m.created = some t ∧ parse_time t lo render = none) ∨
      (∃ t, m.modified = some t ∧ parse_time t lo render = none))
  ∧ (∀ d, FileDate.ofMetadata m lo render = some d →
      (m.created = none → d.created = "unknown")
      ∧ (m.modified = none → d.modified = "unknown" ∧ d.accessed = "unknown")) := by
  obtain ⟨mc, mm, ma⟩ := m
  cases mc with
  | none =>
    cases mm with
    | none => simp [FileDate.ofMetadata, dateField]
    | some t =>
      cases hp : parse_time t lo render with
      | none => simp [FileDate.ofMetadata, dateField, hp]
      | some s => simp [FileDate.ofMetadata, dateField, hp]
  | some t0 =>
    cases hp0 : parse_time t0 lo render with
    | none => simp [FileDate.ofMetadata, dateField, hp0]
    | some s0 =>
      cases mm with
      | none => simp [FileDate.ofMetadata, dateField, hp0]
      | some t =>
        cases hp : parse_time t lo render with
        | none => simp [FileDate.ofMetadata, dateField, hp0, hp]
        | some s => simp [FileDate.ofMetadata, dateField, hp0, hp]

/-- C3 witness: a pre-epoch created-timestamp makes the conversion abort. -/
theorem timestamp_error_characterization_witness :
    FileDate.ofMetadata ⟨some (-5), none, none⟩ zeroOffset simpleRender = none :=
  (timestamp_error_characterization ⟨some (-5), none, none⟩ zeroOffset simpleRender).1.mpr
    (Or.inl ⟨-5, rfl, rfl⟩)

/-- C4 (code bug): with metadata whose modified-time is 5 s and whose
access-time is 7 s after the epoch (created unsupported), the `accessed`
field of the produced record renders instant 5 — the code reads
`value.modified()` for the accessed field (src/informer.rs:201-203) — and
differs from the rendering of the genuine access time, which the claim
(and the spec's stated intent) requires. -/
theorem accessed_field_uses_modified_time :
    FileDate.ofMetadata ⟨none, some 5, some 7⟩ zeroOffset simpleRender
      = some ⟨"unknown", "5", "5"⟩
  ∧ (FileDate.ofMetadata ⟨none, some 5, some 7⟩ zeroOffset simpleRender).map FileDate.accessed
      ≠ some (simpleRender 7 0) := ⟨rfl, by decide⟩

/-- C5 (counterexample): the `+` separator is not placed only between
present labels.  A report with only `Read` present (read-only, no execute
bits) renders the permissions as `"Read++"`, not `"Read"`: absent slots
render as empty strings and the join inserts `+` between all three slots. -/
theorem permissions_join_counterexample :
    permString (FilePermissions.new ⟨true, 0⟩) = "Read++"
  ∧ permString (FilePermissions.new ⟨true, 0⟩) ≠ "Read" := ⟨rfl, by decide⟩

/-- C5 (amended): the permissions line joins the renderings of all three
slots (an absent slot rendering as the empty string) with `+` between
consecutive slots regardless of presence, so only-Read renders `"Read++"`,
Read plus Executable renders `"Read++Executable"`, and all three render
`"Read+Write+Executable"`. -/
theorem permissions_join_all_slots (value : Permissions) :
    permString (FilePermissions.new value) =
      "Read+" ++ (if value.readonly then "" else "Write") ++ "+"
        ++ (if FilePermissions.is_executable value.mode then "Executable" else "") := by
  obtain ⟨ro, mode⟩ := value
  cases ro <;> by_cases he : FilePermissions.is_executable mode = true <;>
    simp_all [FilePermissions.new] <;> decide

/-- C6 (confirmed): for every byte count below 1024 the code formats in the
bytes tier and the displayed numeric value is `n / 1024` (the documented
quirk), not `n` itself; the division is exact in `f32`, so the embedded
value is the exact rational. -/
theorem bytes_tier_value_divided (n : Nat) (h : n < 1024) :
    determine_size n = ((n : ℚ) / 1024, "bytes") := by
  have h24 : n < 2 ^ 24 := lt_of_lt_of_le h (by norm_num)
  have hf : f32round n = n := by rw [f32round, if_pos h24]
  simp only [determine_size, hf]
  rw [if_pos h]

/-- C6 witness: a byte count of 0 formats in the bytes tier without error. -/
theorem bytes_tier_value_divided_witness :
    (0 : Nat) < 1024 ∧ determine_size 0 = (((0 : Nat) : ℚ) / 1024, "bytes") :=
  ⟨by norm_num, bytes_tier_value_divided 0 (by norm_num)⟩

set_option maxRecDepth 10000 in
/-- C7 (counterexample): lines do not keep the fixed total width regardless
of field content length, because only the name field is truncated.  A
report whose size string is 58 characters long yields a size line of 68
characters while the other lines have 67. -/
theorem panel_width_counterexample :
    (File.displayLines badFile).all (fun l => l.length == 67) = false := by decide

/-- C7 (amended): every rendered line has the identical total width of 67
characters (65 inner columns plus the frame) provided each non-name field
fits its reserved width (size ≤ 57, joined permissions ≤ 50, created ≤ 54,
modified ≤ 53, accessed ≤ 53 characters; the kind is an enum and always
fits); the name may have any length — it is truncated, not wrapped.
Over-wide non-name fields are only padded, never truncated, and break the
fixed width. -/
theorem panel_fixed_width_within_bounds (f : File)
    (h1 : f.size.length ≤ 57)
    (h2 : (permString f.permissions).length ≤ 50)
    (h3 : f.date.created.length ≤ 54)
    (h4 : f.date.modified.length ≤ 53)
    (h5 : f.date.accessed.length ≤ 53) :
    (File.displayLines f).all (fun l => l.length == 67) = true := by
  have hk : (FileKind.toStr f.kind).length ≤ 57 := by
    cases f.kind <;> decide
  simp only [File.displayLines, List.all_cons, List.all_nil, Bool.and_eq_true,
    beq_iff_eq, Bool.and_true, and_true]
  refine ⟨?_, ?_, ?_, ?_, ?_, ?_, ?_, ?_, ?_, ?_⟩ <;>
    simp [String.length_append, repeatChar_length, centerPad_length,
      leftPad_length _ _ h1, leftPad_length _ _ h2, leftPad_length _ _ h3,
      leftPad_length _ _ h4, leftPad_length _ _ h5, leftPad_length _ _ hk] <;>
    decide

set_option maxRecDepth 10000 in
/-- C7 witness: a report with in-range fields and an over-long (truncated)
name renders with every line exactly 67 characters wide. -/
theorem panel_fixed_width_within_bounds_witness :
    (okFile.size.length ≤ 57 ∧ (permString okFile.permissions).length ≤ 50
      ∧ okFile.date.created.length ≤ 54 ∧ okFile.date.modified.length ≤ 53
      ∧ okFile.date.accessed.length ≤ 53)
  ∧ (File.displayLines okFile).all (fun l => l.length == 67) = true :=
  ⟨⟨by decide, by decide, by decide, by decide, by decide⟩,
    panel_fixed_width_within_bounds okFile (by decide) (by decide) (by decide)
      (by decide) (by decide)⟩

/-- C8 (confirmed): the kind classifier checks is-file, is-directory,
is-symlink in that priority order and returns exactly one of Regular,
Folder, Symlink whenever at least one predicate holds; when none holds the
`unreachable!` (fatal) branch is taken — there is no Other case (the
codomain has exactly the three constructors). -/
theorem kind_classifier_priority_and_totality (value : FileType) :
    (value.is_file = true → FileKind.ofFileType value = some FileKind.Regular)
  ∧ (value.is_file = false → value.is_dir = true →
      FileKind.ofFileType value = some FileKind.Folder)
  ∧ (value.is_file = false → value.is_dir = false → value.is_symlink = true →
      FileKind.ofFileType value = some FileKind.Symlink)
  ∧ (value.is_file = false → value.is_dir = false → value.is_symlink = false →
      FileKind.ofFileType value = none)
  ∧ ((value.is_file || value.is_dir || value.is_symlink) = true →
      ∃ k, FileKind.ofFileType value = some k) := by
  obtain ⟨bf, bd, bs⟩ := value
  cases bf <;> cases bd <;> cases bs <;> simp [FileKind.ofFileType]

/-- C8 witness: a directory (not a regular file) classifies as Folder. -/
theorem kind_classifier_priority_and_totality_witness :
    FileKind.ofFileType ⟨false, true, false⟩ = some FileKind.Folder :=
  (kind_classifier_priority_and_totality ⟨false, true, false⟩).2.1 rfl rfl

/-- C9 (counterexample): the name field is the sentinel string `"unknown"`
for the path `"unknown"` as well, although that path does have a final
component — so the name is not `"unknown"` **exactly** when the path has no
final component. -/
theorem name_sentinel_collision :
    derive_name "unknown" = "unknown" ∧ Path.file_name "unknown" = some "unknown" :=
  ⟨rfl, rfl⟩

/-- C9 (amended): the name field is the final path component whenever the
path has one and the sentinel `"unknown"` when it has none (e.g. root);
however the field equals `"unknown"` iff the path has no final component
or that component is itself literally `"unknown"`, so the sentinel value
does not imply the absence of a final component. -/
theorem name_from_final_component (arg : String) :
    (Path.file_name arg = none → derive_name arg = "unknown")
  ∧ (∀ c, Path.file_name arg = some c → derive_name arg = c)
  ∧ (derive_name arg = "unknown" ↔
      Path.file_name arg = none ∨ Path.file_name arg = some "unknown") := by
  cases h : Path.file_name arg with
  | none => simp [derive_name, h]
  | some c => simp [derive_name, h]

/-- C9 witness: the root path has no final component and gets the sentinel. -/
theorem name_from_final_component_witness :
    Path.file_name "/" = none ∧ derive_name "/" = "unknown" :=
  ⟨rfl, (name_from_final_component "/").1 rfl⟩

/-- C10 (counterexample): the sentinel byte string `"unknown"` is also
produced when the final component exists and is itself the (valid UTF-8)
byte string `"unknown"` — so the sentinel is not produced **only** when the
path has no final component at all. -/
theorem name_os_sentinel_collision :
    name_os (some unknownBytes) = some unknownBytes
  ∧ (some unknownBytes : Option (List Nat)) ≠ none := ⟨rfl, by decide⟩

/-- C10 (amended): when the final path component exists but is not valid
UTF-8, the `to_str().unwrap()` in `File::new` panics (modelled by `none`)
instead of substituting the sentinel; the output is the sentinel iff the
path has no final component at all or the component is itself the byte
string `"unknown"`. -/
theorem name_os_panics_on_invalid_utf8 (fname : Option (List Nat)) :
    (∀ v, fname = some v → isValidUtf8 v = false → name_os fname = none)
  ∧ (name_os fname = some unknownBytes ↔ fname = none ∨ fname = some unknownBytes) := by
  constructor
  · rintro v rfl hv
    simp [name_os, hv]
  · cases fname with
    | none => simp [name_os]
    | some v =>
      by_cases hv : isValidUtf8 v = true
      · simp [name_os, hv]
      · have hn : name_os (some v) = none := by simp [name_os, hv]
        rw [hn]
        constructor
        · intro h; exact absurd h (by simp)
        · rintro (h | h)
          · exact absurd h (by simp)
          · obtain rfl : v = unknownBytes := by injection h
            exact absurd (by decide : isValidUtf8 unknownBytes = true) hv

/-- C10 witness: a lone invalid byte `0xFF` as the final component panics
(no sentinel substitution). -/
theorem name_os_panics_on_invalid_utf8_witness : name_os (some [0xFF]) = none :=
  (name_os_panics_on_invalid_utf8 (some [0xFF])).1 [0xFF] rfl rfl

end Informer
